import Mathlib

/-!
Shallow embedding of the TMC5072 stepper-motor driver
(`src/tmc5072/stepper_motor_tmc.go`) together with proofs about its
specification claims.

Modelling conventions:

* Go `float64` arithmetic is embedded as exact rational arithmetic over `ℚ`.
  The driver only combines small configuration constants with a handful of
  multiplications and divisions, and the repository's unit tests pin the
  expected register values (542293, 135573, 27114, 5384, -158720, ...);
  the rational model reproduces every one of those pinned values exactly.
* Go's non-constant float-to-integer conversion truncates toward zero;
  this is `fTrunc` below.  (For values outside the `int32` range the Go
  conversion is implementation-defined; the embedding returns the
  mathematical truncation.)
* Machine integers are `Nat`/`Int` with an explicit `% 2 ^ 32` where
  wrap-around matters (`toSigned32`, `u32ofInt`).
* Bus traffic is modelled as an explicit event trace (`Ev`).  Each
  `m.writeReg`/`m.readReg` call site is recorded as one event carrying the
  *logical* (pre-`shiftAddr`) register address that the call site passes.
-/

namespace TMC5072

/-- Truncation toward zero, the semantics of Go's `int32(f)` conversion of a
`float64` value (here an exact rational). -/
def fTrunc (q : ℚ) : ℤ := if 0 ≤ q then ⌊q⌋ else ⌈q⌉

/-- Reinterpret a 32-bit pattern (a natural number) as a two's-complement
signed 32-bit integer, the value a Go `int32` variable holds. -/
def toSigned32 (n : Nat) : ℤ :=
  if n % 2 ^ 32 < 2 ^ 31 then ((n % 2 ^ 32 : Nat) : ℤ)
  else ((n % 2 ^ 32 : Nat) : ℤ) - 2 ^ 32

/-- The 32-bit pattern of a Go `uint32(x)` conversion of an `int32` value. -/
def u32ofInt (i : ℤ) : Nat := (i % 2 ^ 32).toNat

/-! ### TMC5072 register addresses and ramp modes (source lines 175-206)

Register addresses for motor index 1; `shiftAddr` applies the index-2
offsets.  These are the `const` block values of the Go source. -/

def chopConf : Nat := 0x6C
def coolConf : Nat := 0x6D
def drvStatus : Nat := 0x6F
def rampMode : Nat := 0x20
def xActual : Nat := 0x21
def vActual : Nat := 0x22
def vStart : Nat := 0x23
def a1 : Nat := 0x24
def v1 : Nat := 0x25
def aMax : Nat := 0x26
def vMax : Nat := 0x27
def dMax : Nat := 0x28
def d1 : Nat := 0x2A
def vStop : Nat := 0x2B
def xTarget : Nat := 0x2D
def iHoldIRun : Nat := 0x30
def vCoolThres : Nat := 0x31
def swMode : Nat := 0x34
def rampStat : Nat := 0x35

def modePosition : ℤ := 0
def modeVelPos : ℤ := 1
def modeVelNeg : ℤ := 2
def modeHold : ℤ := 3

/-- Embedding of `(m *Motor) shiftAddr` (source lines 357-370): shift the register address
for motor (channel) index 2; any other index leaves the address unchanged.
Addresses are bytes; none of the three shifted ranges can wrap past 255, so
the byte addition is plain `Nat` addition. -/
def shiftAddr (index addr : Nat) : Nat :=
  if index = 2 then
    if 0x10 ≤ addr ∧ addr ≤ 0x11 then addr + 0x08
    else if 0x20 ≤ addr ∧ addr ≤ 0x3C then addr + 0x20
    else if 0x6A ≤ addr ∧ addr ≤ 0x6F then addr + 0x10
    else addr
  else addr

/-! ### Unit converters (source lines 556-589) -/

/-- Embedding of `rpmToV` (source lines 580-589): convert rpm to TMC5072 steps/s.
Clamps `rpm` to `maxRPM`, then `speed = rpm/60 * stepsPerRev / (fClk/2^24)`,
truncated toward zero by the `int32(speed)` conversion. -/
def rpmToV (rpm maxRPM fClk : ℚ) (stepsPerRev : ℤ) : ℤ :=
  let rpm := if rpm > maxRPM then maxRPM else rpm
  let tConst := fClk / 2 ^ 24
  let speed := rpm / 60 * (stepsPerRev : ℚ) / tConst
  fTrunc speed

/-- Embedding of `rpmsToA` (source lines 572-578): convert rpm/s to TMC5072
steps/taConst^2 with `taConst = 2^41 / fClk^2`, truncated toward zero. -/
def rpmsToA (acc fClk : ℚ) (stepsPerRev : ℤ) : ℤ :=
  let taConst := 2 ^ 41 / fClk ^ 2
  let rawMaxAcc := acc / 60 * (stepsPerRev : ℚ) * taConst
  fTrunc rawMaxAcc

/-! ### Ramp parameter model (source lines 28-79, 591-639) -/

/-- Embedding of `rampParameters` (source lines 28-38): eight optional `uint32` fields.
`uint32` values are embedded as `Nat` (all values produced by the driver are
reduced mod `2 ^ 32` by `u32ofInt`). -/
structure rampParameters where
  VStart : Option Nat := none
  VStop : Option Nat := none
  V1 : Option Nat := none
  A1 : Option Nat := none
  D1 : Option Nat := none
  VMax : Option Nat := none
  AMax : Option Nat := none
  DMax : Option Nat := none
deriving DecidableEq, Repr

/-- The Go zero value `rampParameters{}`: every field nil. -/
def emptyRampParameters : rampParameters := {}

/-- A range-violation error produced by `validate`: the Go code formats
`"%s must be between %d and %d, got %d"` from exactly these four data. -/
structure RangeErr where
  name : String
  lo : Nat
  hi : Nat
  got : Nat
deriving DecidableEq, Repr

/-- The `checkRange` closure inside `validate` (source lines 46-51): a
non-nil value outside `[lo, hi]` produces the error naming the field. -/
def checkRange (name : String) (val : Option Nat) (lo hi : Nat) : Option RangeErr :=
  match val with
  | none => none
  | some v => if hi < v ∨ v < lo then some ⟨name, lo, hi, v⟩ else none

/-- First `some` in a list of optional errors; models the sequential
`if err := checkRange(...); err != nil { return err }` chain. -/
def firstSome : List (Option RangeErr) → Option RangeErr
  | [] => none
  | o :: rest =>
    match o with
    | some e => some e
    | none => firstSome rest

/-- Embedding of `(rp *rampParameters) validate` (source lines 41-79) for a non-nil
receiver: the eight `checkRange` calls in source order with the source's
bounds (`uint32(math.Pow(2, k)) - 1` is exactly `2 ^ k - 1`, and
`uint32(math.Pow(2, 23)) - 512 = 8388096`). -/
def validateRamp (rp : rampParameters) : Option RangeErr :=
  firstSome
    [checkRange "v_start" rp.VStart 0 262143,
     checkRange "v_stop" rp.VStop 1 262143,
     checkRange "v1" rp.V1 0 1048575,
     checkRange "a1" rp.A1 0 65535,
     checkRange "d1" rp.D1 1 65535,
     checkRange "v_max" rp.VMax 0 8388096,
     checkRange "a_max" rp.AMax 0 65535,
     checkRange "d_max" rp.DMax 0 65535]

/-- Embedding of `(rp *rampParameters) validate` including the nil-receiver guard
(source lines 42-44): a nil pointer validates successfully. -/
def validateRampPtr (rp : Option rampParameters) : Option RangeErr :=
  match rp with
  | none => none
  | some r => validateRamp r

/-- Embedding of `initRampParameters` (source lines 591-608): the default ramp parameters
derived from the configured maximums.  Note the source computes the default
`vMax` as `rpmToV(0, maxRPM, fClk, stepsPerRev)` (the velocity conversion of
rpm 0), not of `maxRPM`. -/
def initRampParameters (maxRPM maxAcc fClk : ℚ) (stepsPerRev : ℤ) : rampParameters :=
  let rawMaxAcc := u32ofInt (rpmsToA maxAcc fClk stepsPerRev)
  let vStartD : Nat := 1
  let vStopD : Nat := 10
  let v1D := u32ofInt (rpmToV (maxRPM / 4) maxRPM fClk stepsPerRev)
  let vMaxD := u32ofInt (rpmToV 0 maxRPM fClk stepsPerRev)
  { VStart := some vStartD
    VStop := some vStopD
    V1 := some v1D
    A1 := some rawMaxAcc
    D1 := some rawMaxAcc
    VMax := some vMaxD
    AMax := some rawMaxAcc
    DMax := some rawMaxAcc }

/-- Embedding of `mergeRampParameters` (source lines 610-639): start from a copy of
`base` and replace each field whose `override` value is non-nil.  The Go
function takes both structs by value, so `base` itself is immutable; the
embedding is accordingly a pure function. -/
def mergeRampParameters (base override : rampParameters) : rampParameters :=
  let result := base
  let result := if override.VStart.isSome then { result with VStart := override.VStart } else result
  let result := if override.VStop.isSome then { result with VStop := override.VStop } else result
  let result := if override.V1.isSome then { result with V1 := override.V1 } else result
  let result := if override.A1.isSome then { result with A1 := override.A1 } else result
  let result := if override.D1.isSome then { result with D1 := override.D1 } else result
  let result := if override.VMax.isSome then { result with VMax := override.VMax } else result
  let result := if override.AMax.isSome then { result with AMax := override.AMax } else result
  let result := if override.DMax.isSome then { result with DMax := override.DMax } else result
  result

/-! ### Register protocol layer (source lines 372-451) -/

/-- A 5-byte reply frame delivered by `handle.Xfer`.  Go's `byte` values are
embedded as `Nat`; every byte-typed quantity is used modulo 256. -/
structure RxFrame where
  b0 : Nat
  b1 : Nat
  b2 : Nat
  b3 : Nat
  b4 : Nat
deriving DecidableEq, Repr

/-- The reply-decoding arithmetic of `readReg` (source lines 439-446):
`value = int32(rbuf[1]); value <<= 8; value |= int32(rbuf[2]); ...`.
Go `int32` arithmetic is two's complement, so the running value is carried
as its 32-bit pattern: each `<<= 8` multiplies by 256 modulo `2 ^ 32`, and
each `|=` ORs a byte into the low 8 bits just vacated by the shift — since
those bits are zero, the OR coincides with addition.  The final `int32` is
the signed reinterpretation of the pattern. -/
def readRegDecode (b1 b2 b3 b4 : Nat) : ℤ :=
  let v : Nat := b1 % 256
  let v := v * 256 % 2 ^ 32
  let v := v + b2 % 256
  let v := v * 256 % 2 ^ 32
  let v := v + b3 % 256
  let v := v * 256 % 2 ^ 32
  let v := v + b4 % 256
  toSigned32 v

/-- Specification-side decoder: the 4 payload bytes read as a big-endian
unsigned 32-bit integer, reinterpreted as signed ("big-endian signed
32-bit integer"). -/
def beSigned32 (b1 b2 b3 b4 : Nat) : ℤ :=
  toSigned32 (b1 % 256 * 16777216 + b2 % 256 * 65536 + b3 % 256 * 256 + b4 % 256)

/-- Result of one `readReg` call: the request payloads handed to
`handle.Xfer`, in order, and the returned `int32`. -/
structure ReadRegResult where
  requests : List (List Nat)
  value : ℤ
deriving DecidableEq, Repr

/-- Embedding of `(m *Motor) readReg` (source lines 407-451) on the success path.  The
request buffer is `tbuf[0] = shiftAddr(addr)` followed by four zero bytes;
the same buffer is transmitted twice under the held global lock.  The first
reply `_r1` is ignored (the chip answers for the *previous* command); the
second reply `r2` is decoded. -/
def readReg (index addr : Nat) (_r1 r2 : RxFrame) : ReadRegResult :=
  let a := shiftAddr index addr
  let tbuf : List Nat := [a, 0, 0, 0, 0]
  -- first Xfer: transmit tbuf, reply r1 discarded
  -- second Xfer: transmit tbuf, reply r2 decoded
  { requests := [tbuf, tbuf]
    value := readRegDecode r2.b1 r2.b2 r2.b3 r2.b4 }

/-! ### Traced motion operations

Each `m.writeReg(ctx, reg, val)` call site is recorded as `Ev.wr reg val`
and each `m.readReg(ctx, reg)` call site as `Ev.rd reg`, with the logical
(pre-shift) register address the call site passes. -/

/-- One bus operation issued by the motion controller. -/
inductive Ev where
  | wr (addr : Nat) (val : ℤ)
  | rd (addr : Nat)
deriving DecidableEq, Repr

/-- Embedding of `(m *Motor) doJog` (source lines 503-525): pick the velocity ramp mode
by the sign of `rpm` (forward for `rpm = 0`), then write the ramp-mode
register followed by the max-velocity register with `rpmToV(|rpm|)`.
The speed-check warning/error is only logged, never returned. -/
def doJog (maxRPM fClk : ℚ) (stepsPerRev : ℤ) (rpm : ℚ) : List Ev :=
  let mode := if rpm < 0 then modeVelNeg else modeVelPos
  let speed := rpmToV |rpm| maxRPM fClk stepsPerRev
  [Ev.wr rampMode mode, Ev.wr vMax speed]

/-- Embedding of `(m *Motor) Stop` (source lines 842-845): cancel any running operation
(no bus traffic) and delegate to `doJog` with rpm 0. -/
def Stop (maxRPM fClk : ℚ) (stepsPerRev : ℤ) : List Ev :=
  doJog maxRPM fClk stepsPerRev 0

/-- The list of values written by `applyRampParameters` (source lines
698-709), in source order: a1, aMax, d1, dMax, vStart, vStop, v1.  The
driver's stored ramp parameters always have every field present
(`initRampParameters` sets all eight and `mergeRampParameters` preserves
presence), so the dereferenced `uint32` values are modelled as a record of
eight plain values. -/
structure AppliedRamp where
  vStartV : Nat
  vStopV : Nat
  v1V : Nat
  a1V : Nat
  d1V : Nat
  vMaxV : Nat
  aMaxV : Nat
  dMaxV : Nat
deriving DecidableEq, Repr

/-- Embedding of `(m *Motor) applyRampParameters` (source lines 698-709): seven register
writes, each `int32(*params.F)`. -/
def applyRampParameters (p : AppliedRamp) : List Ev :=
  [Ev.wr a1 (toSigned32 p.a1V),
   Ev.wr aMax (toSigned32 p.aMaxV),
   Ev.wr d1 (toSigned32 p.d1V),
   Ev.wr dMax (toSigned32 p.dMaxV),
   Ev.wr vStart (toSigned32 p.vStartV),
   Ev.wr vStop (toSigned32 p.vStopV),
   Ev.wr v1 (toSigned32 p.v1V)]

/-- The logical/state error of `ResetZeroPosition` while moving. -/
inductive ZeroErr where
  | moving
deriving DecidableEq, Repr

/-- Embedding of `(m *Motor) ResetZeroPosition` (source lines 951-964).  `powered` is the
value reported by `IsPowered` (true = moving).  When moving, the call fails
with the "can't zero motor while moving" error and performs no register
write; otherwise it writes ramp-mode Hold, the seven ramp-parameter
registers, and the target- and actual-position registers, both with
`int32(-1 * offset * stepsPerRev)` (truncation toward zero). -/
def ResetZeroPosition (offset : ℚ) (stepsPerRev : ℤ) (p : AppliedRamp)
    (powered : Bool) : Option ZeroErr × List Ev :=
  if powered then (some ZeroErr.moving, [])
  else
    let pos := fTrunc (-1 * offset * (stepsPerRev : ℚ))
    (none,
      Ev.wr rampMode modeHold :: applyRampParameters p
        ++ [Ev.wr xTarget pos, Ev.wr xActual pos])

/-! ### Speed validation and GoFor (source lines 527-554) -/

/-- The dedicated zero-speed error (`motor.NewZeroRPMError()`). -/
inductive SpeedErr where
  | zeroRPM
deriving DecidableEq, Repr

/-- Modelled from the spec: `motor.CheckSpeed` is a helper of the external
RDK `motor` package, not part of this repository.  Per the spec (§8
scenario, §9 open question on the "nearly zero"/"nearly max" bands) and the
repository's unit tests — `GoFor(rpm=0.05, …)` returns the zero-RPM error
with a "nearly 0" warning logged, `GoFor(rpm=500=maxRPM, …)` logs a
"nearly the max" warning with no error — a speed whose magnitude is below
0.1 rpm yields the dedicated zero-RPM error together with the "nearly 0"
warning, a speed within 0.1 of the configured maximum yields only the
"nearly the max" warning, and any other speed yields neither. -/
def CheckSpeed (rpm maxRPM : ℚ) : String × Option SpeedErr :=
  if |rpm| < 1 / 10 then
    ("motor speed is nearly 0 rev_per_min", some SpeedErr.zeroRPM)
  else if maxRPM - |rpm| < 1 / 10 then
    ("motor speed is nearly the max rev_per_min", none)
  else ("", none)

/-- Outcome of `GoFor`: either an early validation error, or the delegated
`GoTo` call (speed and absolute target, in revolutions). -/
inductive GoForOutcome where
  | err (e : SpeedErr)
  | goTo (rpm target : ℚ)
deriving DecidableEq

/-- Embedding of `(m *Motor) GoFor` (source lines 530-554) up to its delegation to
`GoTo`.  `CheckSpeed` runs first and an error aborts the call before any
bus access; otherwise the current position is read (`Position` issues one
`readReg` of the actual-position register; `curPos` is the value it
reports, in revolutions), the travel direction is resolved from the two
sign bits (`Signbit` on a rational is `< 0`), and the call delegates to
`GoTo` with the absolute rpm and `curPos + |rotations| * d`. -/
def GoFor (maxRPM rpm rotations curPos : ℚ) : GoForOutcome × List Ev :=
  match (CheckSpeed rpm maxRPM).2 with
  | some e => (GoForOutcome.err e, [])
  | none =>
    let d : ℚ := if (decide (rotations < 0)) != (decide (rpm < 0)) then -1 else 1
    let rotations := |rotations| * d
    let rpm := |rpm|
    let target := curPos + rotations
    (GoForOutcome.goTo rpm target, [Ev.rd xActual])

/-! ### goTillStop (source lines 872-947)

The homing jog.  The environment is abstracted as three oracles indexed by
poll number: `stopF` (the optional `stopFunc` callback), `atVel` (the
"target velocity reached" bit read by `AtVelocity`), and `stopped` (the
"motion stopped" bit read by `IsStopped`).  Context cancellation and bus
errors are outside this model (the claims concern the poll-count-bounded
paths).  Each loop carries the Go `fails` counter; the recursion is fuelled
with exactly `bound + 1` steps, which is precise because the
`fails >= bound` guard returns before the fuel can run out (the fuel-0 arm
is unreachable from the entry points below). -/

/-- The two timeout errors of `goTillStop`. -/
inductive GtsErr where
  | over500
  | over10000
deriving DecidableEq, Repr

/-- First poll loop (source lines 891-914): wait, check `stopFunc`, poll
`AtVelocity`; break when ready, fail once `fails` reaches 500.  Returns
`true` when `stopFunc` ended the routine early, `false` when the target
velocity was reached. -/
def upLoop (stopF : Option (Nat → Bool)) (atVel : Nat → Bool) :
    Nat → Nat → Except GtsErr Bool
  | _, 0 => Except.error GtsErr.over500
  | fails, fuel + 1 =>
    if (match stopF with | some f => f fails | none => false) then Except.ok true
    else if atVel fails then Except.ok false
    else if 500 ≤ fails then Except.error GtsErr.over500
    else upLoop stopF atVel (fails + 1) fuel

/-- Second poll loop (source lines 922-944): wait, check `stopFunc`, poll
`IsStopped`; break when stopped, fail once `fails` reaches 10000. -/
def downLoop (stopF : Option (Nat → Bool)) (stopped : Nat → Bool) :
    Nat → Nat → Except GtsErr Unit
  | _, 0 => Except.error GtsErr.over10000
  | fails, fuel + 1 =>
    if (match stopF with | some f => f fails | none => false) then Except.ok ()
    else if stopped fails then Except.ok ()
    else if 10000 ≤ fails then Except.error GtsErr.over10000
    else downLoop stopF stopped (fails + 1) fuel

/-- Embedding of `(m *Motor) goTillStop` (source lines 873-947): jog at `rpm`; run the
up-to-speed loop; on reaching the target velocity write `0x400` to the
stallguard status-mask register and run the endstop loop.  The deferred
cleanup — a write of `0x000` to the status-mask register followed by a
zero-velocity jog — runs on every exit path of the body (it is registered
immediately after the initial jog). -/
def goTillStop (maxRPM fClk : ℚ) (stepsPerRev : ℤ) (rpm : ℚ)
    (stopF : Option (Nat → Bool)) (atVel stopped : Nat → Bool) :
    Option GtsErr × List Ev :=
  let jogEvs := doJog maxRPM fClk stepsPerRev rpm
  let cleanupEvs := Ev.wr swMode 0x000 :: doJog maxRPM fClk stepsPerRev 0
  match upLoop stopF atVel 0 501 with
  | Except.error e => (some e, jogEvs ++ cleanupEvs)
  | Except.ok true => (none, jogEvs ++ cleanupEvs)
  | Except.ok false =>
    match downLoop stopF stopped 0 10001 with
    | Except.error e => (some e, jogEvs ++ [Ev.wr swMode 0x400] ++ cleanupEvs)
    | Except.ok _ => (none, jogEvs ++ [Ev.wr swMode 0x400] ++ cleanupEvs)

/-- Recognizer for the cleanup's stallguard-disable write: a write of 0 to
the status-mask register `swMode`. -/
def isCleanupWr (e : Ev) : Bool :=
  match e with
  | Ev.wr a v => a == swMode && v == 0
  | Ev.rd _ => false

/-- Number of stallguard-disable cleanup writes in a trace. -/
def countCleanup (t : List Ev) : Nat := t.countP isCleanupWr

/-- Values written to register `a` in a trace, in order. -/
def writesTo (t : List Ev) (a : Nat) : List ℤ :=
  t.filterMap fun e =>
    match e with
    | Ev.wr a' v => if a' == a then some v else none
    | Ev.rd _ => none

/-! ### Specification-side definitions used by the theorems -/

/-- Per-field merge semantics: a present override value wins, an absent one
passes the base value through. -/
def mergeField (base ov : Option Nat) : Option Nat :=
  match ov with
  | some v => some v
  | none => base

/-- Specification-side range test for one optional field: a present value
must lie in `[lo, hi]`; an absent field always passes. -/
def fieldOkB (v : Option Nat) (lo hi : Nat) : Bool :=
  match v with
  | none => true
  | some x => decide (lo ≤ x ∧ x ≤ hi)

/-- Specification-side conjunction of all eight field ranges, with
inclusive lower bound 1 for `v_stop` and `d1` and 0 for the other six
fields. -/
def rampOkB (rp : rampParameters) : Bool :=
  fieldOkB rp.VStart 0 262143 && fieldOkB rp.VStop 1 262143 &&
  fieldOkB rp.V1 0 1048575 && fieldOkB rp.A1 0 65535 &&
  fieldOkB rp.D1 1 65535 && fieldOkB rp.VMax 0 8388096 &&
  fieldOkB rp.AMax 0 65535 && fieldOkB rp.DMax 0 65535

/-! ### Shared helper lemmas -/

set_option maxRecDepth 20000

/-- The velocity-register conversion of rpm 0 is 0 whenever the configured
maximum is nonnegative (the clamp does not fire and the speed expression is
the zero rational). -/
theorem rpmToV_zero (maxRPM fClk : ℚ) (stepsPerRev : ℤ) (h : 0 ≤ maxRPM) :
    rpmToV 0 maxRPM fClk stepsPerRev = 0 := by
  unfold rpmToV fTrunc
  rw [if_neg (not_lt.mpr h)]
  norm_num

/-! ### C6: register address shift -/

/-- C6: for channel index 2, addresses in [0x10, 0x11] shift by +0x08,
addresses in [0x20, 0x3C] shift by +0x20, addresses in [0x6A, 0x6F] shift
by +0x10, and every other address is unchanged; for channel index 1 every
address is unchanged. -/
theorem C6_shiftAddr_spec (a : Fin 256) :
    (0x10 ≤ a.val ∧ a.val ≤ 0x11 → shiftAddr 2 a.val = a.val + 0x08) ∧
    (0x20 ≤ a.val ∧ a.val ≤ 0x3C → shiftAddr 2 a.val = a.val + 0x20) ∧
    (0x6A ≤ a.val ∧ a.val ≤ 0x6F → shiftAddr 2 a.val = a.val + 0x10) ∧
    (¬(0x10 ≤ a.val ∧ a.val ≤ 0x11) ∧ ¬(0x20 ≤ a.val ∧ a.val ≤ 0x3C) ∧
        ¬(0x6A ≤ a.val ∧ a.val ≤ 0x6F) → shiftAddr 2 a.val = a.val) ∧
    shiftAddr 1 a.val = a.val := by
  revert a
  decide

/-- C6 witness: the ramp-mode register 0x20 of channel 2 shifts to 0x40,
instantiating the theorem at a concrete address. -/
theorem C6_witness : shiftAddr 2 0x20 = 0x20 + 0x20 :=
  (C6_shiftAddr_spec ⟨0x20, by decide⟩).2.1 (by decide)

/-! ### C2: readRegister protocol -/

/-- C2: for every register address and channel index, `readReg` issues
exactly two bus transfers whose 5-byte request payloads are identical (the
shifted address byte followed by four zero bytes), its result does not
depend on the first reply (which is discarded), and the returned value is
the second reply's 4 payload bytes decoded as a big-endian signed 32-bit
integer. -/
theorem C2_readReg_spec (index addr : Nat) (r1 r1' r2 : RxFrame) :
    (readReg index addr r1 r2).requests =
      [[shiftAddr index addr, 0, 0, 0, 0], [shiftAddr index addr, 0, 0, 0, 0]] ∧
    (readReg index addr r1 r2).requests.length = 2 ∧
    (readReg index addr r1 r2).value = (readReg index addr r1' r2).value ∧
    (readReg index addr r1 r2).value = beSigned32 r2.b1 r2.b2 r2.b3 r2.b4 := by
  refine ⟨rfl, rfl, rfl, ?_⟩
  show readRegDecode r2.b1 r2.b2 r2.b3 r2.b4 = _
  have h32 : (2 : Nat) ^ 32 = 4294967296 := by norm_num
  simp only [readRegDecode, beSigned32, h32]
  congr 1
  omega

/-! ### C5: GoFor with rpm exactly 0 -/

/-- C5: for every rotations value (and current position and configured
maximum), `GoFor` called with rpm exactly 0 returns the dedicated zero-speed
error before any register access: the outcome is the dedicated
`SpeedErr.zeroRPM` and the bus trace is empty. -/
theorem C5_goFor_zero_rpm (maxRPM rotations curPos : ℚ) :
    GoFor maxRPM 0 rotations curPos = (GoForOutcome.err SpeedErr.zeroRPM, []) := by
  unfold GoFor CheckSpeed
  norm_num

/-! ### C10: Stop is a zero-velocity forward jog -/

/-- C10: `Stop` issues exactly two register writes and nothing else —
ramp-mode set to velocity-forward mode (value 1), then max-velocity set
to 0 — regardless of any prior direction of motion (the jogged rpm is the
constant 0, whose sign selects the forward mode). -/
theorem C10_stop_two_writes (maxRPM fClk : ℚ) (stepsPerRev : ℤ) (h : 0 ≤ maxRPM) :
    Stop maxRPM fClk stepsPerRev = [Ev.wr rampMode modeVelPos, Ev.wr vMax 0] ∧
    (Stop maxRPM fClk stepsPerRev).length = 2 := by
  have h0 : rpmToV |(0 : ℚ)| maxRPM fClk stepsPerRev = 0 := by
    rw [abs_zero]
    exact rpmToV_zero maxRPM fClk stepsPerRev h
  constructor
  · unfold Stop doJog
    rw [h0, if_neg (lt_irrefl (0 : ℚ))]
  · unfold Stop doJog
    rfl

/-- C10 witness: the theorem instantiated at the unit tests' configuration
(maxRPM 500, internal clock, 51200 steps per revolution). -/
theorem C10_witness :
    (0 : ℚ) ≤ 500 ∧
      Stop 500 13200000 51200 = [Ev.wr rampMode modeVelPos, Ev.wr vMax 0] :=
  ⟨by norm_num, (C10_stop_two_writes 500 13200000 51200 (by norm_num)).1⟩

/-! ### C7: merge algebra -/

/-- The function `mergeRampParameters` acts field-by-field as `mergeField`. -/
theorem mergeRampParameters_eq (b o : rampParameters) :
    mergeRampParameters b o =
      ⟨mergeField b.VStart o.VStart, mergeField b.VStop o.VStop,
       mergeField b.V1 o.V1, mergeField b.A1 o.A1, mergeField b.D1 o.D1,
       mergeField b.VMax o.VMax, mergeField b.AMax o.AMax,
       mergeField b.DMax o.DMax⟩ := by
  obtain ⟨b1, b2, b3, b4, b5, b6, b7, b8⟩ := b
  obtain ⟨o1, o2, o3, o4, o5, o6, o7, o8⟩ := o
  cases o1 <;> cases o2 <;> cases o3 <;> cases o4 <;>
    cases o5 <;> cases o6 <;> cases o7 <;> cases o8 <;> rfl

/-- C7: `mergeRampParameters` is idempotent in its override
(`merge (merge base o) o = merge base o`) and the empty override (the Go
zero value, all fields nil) is a right identity (`merge base empty = base`).
The Go function receives both structs by value and only assigns to its
local `result`, so `base` is never mutated; correspondingly the embedding
is a pure function of its arguments. -/
theorem C7_merge_idempotent_identity (b o : rampParameters) :
    mergeRampParameters (mergeRampParameters b o) o = mergeRampParameters b o ∧
    mergeRampParameters b emptyRampParameters = b := by
  have idem : ∀ x y, mergeField (mergeField x y) y = mergeField x y := by
    intro x y
    cases y <;> rfl
  constructor
  · rw [mergeRampParameters_eq b o, mergeRampParameters_eq]
    simp only [idem]
  · rw [mergeRampParameters_eq]
    rfl

/-! ### C9: validate field ranges -/

theorem firstSome_eq_none (l : List (Option RangeErr)) :
    firstSome l = none ↔ ∀ o ∈ l, o = none := by
  induction l with
  | nil => simp [firstSome]
  | cons h t ih => cases h <;> simp [firstSome, ih]

theorem checkRange_eq_none (n : String) (v : Option Nat) (lo hi : Nat) :
    (checkRange n v lo hi = none) ↔ fieldOkB v lo hi = true := by
  cases v with
  | none => simp [checkRange, fieldOkB]
  | some x =>
    simp only [checkRange, fieldOkB, ite_eq_right_iff, decide_eq_true_eq]
    constructor
    · intro himp
      by_contra hc
      exact Option.noConfusion (himp (by omega))
    · intro hok hbad
      omega

/-- C9: `validate` accepts 0 for `v_start`, `v1`, `v_max`, `a1`, `a_max`
and `d_max`, but rejects a present `v_stop` of 0 and a present `d1` of 0
(their inclusive lower bound is 1, not 0), reporting a range error that
names the field and its bounds; in general, validation succeeds exactly
when every present field lies within its range (lower bound 1 for `v_stop`
and `d1`, 0 for the other six fields). -/
theorem C9_validate_ranges :
    validateRamp { VStart := some 0 } = none ∧
    validateRamp { V1 := some 0 } = none ∧
    validateRamp { VMax := some 0 } = none ∧
    validateRamp { A1 := some 0 } = none ∧
    validateRamp { AMax := some 0 } = none ∧
    validateRamp { DMax := some 0 } = none ∧
    validateRamp { VStop := some 0 } = some ⟨"v_stop", 1, 262143, 0⟩ ∧
    validateRamp { D1 := some 0 } = some ⟨"d1", 1, 65535, 0⟩ ∧
    ∀ rp : rampParameters, validateRamp rp = none ↔ rampOkB rp = true := by
  refine ⟨rfl, rfl, rfl, rfl, rfl, rfl, rfl, rfl, ?_⟩
  intro rp
  rw [validateRamp, firstSome_eq_none]
  simp only [List.mem_cons, List.not_mem_nil, or_false, forall_eq_or_imp, forall_eq,
    checkRange_eq_none, rampOkB, Bool.and_eq_true]
  tauto

/-! ### C8: monotonicity of the velocity conversion -/

/-- C8: for valid inputs with `0 ≤ rpm1 ≤ rpm2 ≤ maxRPM`, a positive clock
frequency and a nonnegative steps-per-revolution, the rpm-to-velocity-
register conversion is monotonically non-decreasing in rpm. -/
theorem C8_rpmToV_monotone (rpm1 rpm2 maxRPM fClk : ℚ) (stepsPerRev : ℤ)
    (h0 : 0 ≤ rpm1) (h12 : rpm1 ≤ rpm2) (h2 : rpm2 ≤ maxRPM)
    (hc : 0 < fClk) (hs : 0 ≤ stepsPerRev) :
    rpmToV rpm1 maxRPM fClk stepsPerRev ≤ rpmToV rpm2 maxRPM fClk stepsPerRev := by
  unfold rpmToV
  rw [if_neg (not_lt.mpr (h12.trans h2)), if_neg (not_lt.mpr h2)]
  have ht : (0 : ℚ) < fClk / 2 ^ 24 := by positivity
  have hsq : (0 : ℚ) ≤ (stepsPerRev : ℚ) := by exact_mod_cast hs
  have hmono : rpm1 / 60 * (stepsPerRev : ℚ) / (fClk / 2 ^ 24) ≤
      rpm2 / 60 * (stepsPerRev : ℚ) / (fClk / 2 ^ 24) := by
    gcongr
  have hnn : (0 : ℚ) ≤ rpm1 / 60 * (stepsPerRev : ℚ) / (fClk / 2 ^ 24) :=
    div_nonneg (mul_nonneg (div_nonneg h0 (by norm_num)) hsq) ht.le
  unfold fTrunc
  rw [if_pos hnn, if_pos (hnn.trans hmono)]
  exact Int.floor_mono hmono

/-- C8 witness: the theorem instantiated at rpm 100 ≤ rpm 200 under the
unit tests' configuration. -/
theorem C8_witness :
    (0 : ℚ) ≤ 100 ∧ (100 : ℚ) ≤ 200 ∧ (200 : ℚ) ≤ 500 ∧ (0 : ℚ) < 13200000 ∧
      (0 : ℤ) ≤ 51200 ∧
      rpmToV 100 500 13200000 51200 ≤ rpmToV 200 500 13200000 51200 :=
  ⟨by norm_num, by norm_num, by norm_num, by norm_num, by norm_num,
    C8_rpmToV_monotone 100 200 500 13200000 51200 (by norm_num) (by norm_num)
      (by norm_num) (by norm_num) (by norm_num)⟩

/-! ### C1: default ramp parameters -/

/-- C1 (amended): the derived default ramp parameters have start velocity 1,
stop velocity 10, phase-1 velocity equal to the velocity-register conversion
of maxRPM/4, phase-1 and max acceleration and both decelerations all equal
to the single acceleration-register conversion of the configured maximum
acceleration, and max velocity equal to the velocity-register conversion of
rpm 0 — which is 0 for a nonnegative maxRPM (not the conversion of maxRPM,
as the original claim states). -/
theorem C1_initRampParameters_defaults (maxRPM maxAcc fClk : ℚ) (stepsPerRev : ℤ)
    (h : 0 ≤ maxRPM) :
    (initRampParameters maxRPM maxAcc fClk stepsPerRev).VStart = some 1 ∧
    (initRampParameters maxRPM maxAcc fClk stepsPerRev).VStop = some 10 ∧
    (initRampParameters maxRPM maxAcc fClk stepsPerRev).V1 =
      some (u32ofInt (rpmToV (maxRPM / 4) maxRPM fClk stepsPerRev)) ∧
    (initRampParameters maxRPM maxAcc fClk stepsPerRev).A1 =
      some (u32ofInt (rpmsToA maxAcc fClk stepsPerRev)) ∧
    (initRampParameters maxRPM maxAcc fClk stepsPerRev).D1 =
      (initRampParameters maxRPM maxAcc fClk stepsPerRev).A1 ∧
    (initRampParameters maxRPM maxAcc fClk stepsPerRev).AMax =
      (initRampParameters maxRPM maxAcc fClk stepsPerRev).A1 ∧
    (initRampParameters maxRPM maxAcc fClk stepsPerRev).DMax =
      (initRampParameters maxRPM maxAcc fClk stepsPerRev).A1 ∧
    (initRampParameters maxRPM maxAcc fClk stepsPerRev).VMax =
      some (u32ofInt (rpmToV 0 maxRPM fClk stepsPerRev)) ∧
    (initRampParameters maxRPM maxAcc fClk stepsPerRev).VMax = some 0 := by
  refine ⟨rfl, rfl, rfl, rfl, rfl, rfl, rfl, rfl, ?_⟩
  show some (u32ofInt (rpmToV 0 maxRPM fClk stepsPerRev)) = some 0
  rw [rpmToV_zero maxRPM fClk stepsPerRev h]
  rfl

/-- C1 witness: the theorem instantiated at the unit tests' configuration
(maxRPM 500, max acceleration 500, clock 13.2 MHz, 51200 steps/rev). -/
theorem C1_witness :
    (0 : ℚ) ≤ 500 ∧ (initRampParameters 500 500 13200000 51200).VMax = some 0 :=
  ⟨by norm_num,
    (C1_initRampParameters_defaults 500 500 13200000 51200 (by norm_num)).2.2.2.2.2.2.2.2⟩

/-- C1 counterexample: at the unit tests' configuration the derived max
velocity is 0, whereas the velocity-register conversion of maxRPM is 542293
(the value the repository's tests pin for the max-velocity register when a
motion at maxRPM is requested); the default `VMax` is therefore not the
conversion of maxRPM, refuting the original claim at this input. -/
theorem C1_counterexample :
    (initRampParameters 500 500 13200000 51200).VMax = some 0 ∧
    u32ofInt (rpmToV 500 500 13200000 51200) = 542293 ∧
    (initRampParameters 500 500 13200000 51200).VMax ≠
      some (u32ofInt (rpmToV 500 500 13200000 51200)) := by
  have hv : rpmToV 500 500 13200000 51200 = 542293 := by
    simp only [rpmToV, fTrunc]
    norm_num
  have hu : u32ofInt (rpmToV 500 500 13200000 51200) = 542293 := by
    rw [hv]
    rfl
  have h0 : (initRampParameters 500 500 13200000 51200).VMax = some 0 := by
    show some (u32ofInt (rpmToV 0 500 13200000 51200)) = some 0
    rw [rpmToV_zero 500 13200000 51200 (by norm_num)]
    rfl
  refine ⟨h0, hu, ?_⟩
  rw [h0, hu]
  decide

/-! ### C4: ResetZeroPosition -/

/-- C4 (amended): when the motor reports not powered, `ResetZeroPosition`
succeeds, its first register write sets ramp-mode to Hold, and both the
target-position and actual-position registers are written (once each) with
the truncation toward zero of `-offset * stepsPerRev` (Go's float-to-int32
conversion truncates; it does not round); when the motor reports powered,
the call fails with the logical "can't zero while moving" error and
performs no register write at all. -/
theorem C4_resetZeroPosition_spec (offset : ℚ) (stepsPerRev : ℤ) (p : AppliedRamp) :
    ResetZeroPosition offset stepsPerRev p true = (some ZeroErr.moving, []) ∧
    (ResetZeroPosition offset stepsPerRev p false).1 = none ∧
    writesTo (ResetZeroPosition offset stepsPerRev p false).2 xTarget =
      [fTrunc (-1 * offset * (stepsPerRev : ℚ))] ∧
    writesTo (ResetZeroPosition offset stepsPerRev p false).2 xActual =
      [fTrunc (-1 * offset * (stepsPerRev : ℚ))] ∧
    (ResetZeroPosition offset stepsPerRev p false).2.head? =
      some (Ev.wr rampMode modeHold) :=
  ⟨rfl, rfl, rfl, rfl, rfl⟩

/-- C4 counterexample: at offset 8217/8192 (an exact binary fraction, so
the float computation is exact) with 256 steps per revolution and the motor
not powered, the code writes -256 (truncation of -256.78125) to the
target-position register, while rounding -offset * stepsPerRev gives -257;
the written value is not the rounded value, refuting the original claim at
this input. -/
theorem C4_counterexample :
    writesTo (ResetZeroPosition (8217 / 8192) 256
        ⟨1, 10, 135573, 5384, 5384, 0, 5384, 5384⟩ false).2 xTarget = [-256] ∧
    round (-1 * ((8217 : ℚ) / 8192) * 256) = -257 ∧
    writesTo (ResetZeroPosition (8217 / 8192) 256
        ⟨1, 10, 135573, 5384, 5384, 0, 5384, 5384⟩ false).2 xTarget ≠
      [round (-1 * ((8217 : ℚ) / 8192) * 256)] := by
  have ht : fTrunc (-1 * ((8217 : ℚ) / 8192) * 256) = -256 := by
    simp only [fTrunc]
    norm_num
    rw [Int.ceil_eq_iff]
    norm_num
  have hr : round (-1 * ((8217 : ℚ) / 8192) * 256) = -257 := by
    rw [round_eq, Int.floor_eq_iff]
    norm_num
  have hw : writesTo (ResetZeroPosition (8217 / 8192) 256
      ⟨1, 10, 135573, 5384, 5384, 0, 5384, 5384⟩ false).2 xTarget =
      [fTrunc (-1 * ((8217 : ℚ) / 8192) * 256)] := rfl
  refine ⟨by rw [hw, ht], hr, ?_⟩
  rw [hw, ht, hr]
  decide

/-! ### C3: goTillStop timeout and cleanup -/

/-- If the "target velocity reached" bit is never set during the first 501
polls, the up-to-speed loop returns the over-500 timeout error.  The fuel
argument tracks the loop's own counter bound: `fails + fuel = 501`. -/
theorem upLoop_all_false (atVel : Nat → Bool)
    (h : ∀ i, i ≤ 500 → atVel i = false) :
    ∀ fuel fails, fails + fuel = 501 →
      upLoop none atVel fails fuel = Except.error GtsErr.over500 := by
  intro fuel
  induction fuel with
  | zero => intro fails _; rfl
  | succ n ih =>
    intro fails hsum
    have hf : fails ≤ 500 := by omega
    by_cases h500 : 500 ≤ fails
    · simp [upLoop, h fails hf, h500]
    · simp only [upLoop, h fails hf, Bool.false_eq_true, if_false, h500]
      exact ih (fails + 1) (by omega)

/-- Every exit path of `goTillStop` performs the cleanup (the write of 0 to
the stallguard status-mask register, followed by the zero-velocity jog)
exactly once: no other event in any trace is a zero write to that register. -/
theorem goTillStop_cleanup_once (maxRPM fClk : ℚ) (stepsPerRev : ℤ) (rpm : ℚ)
    (stopF : Option (Nat → Bool)) (atVel stopped : Nat → Bool) :
    countCleanup (goTillStop maxRPM fClk stepsPerRev rpm stopF atVel stopped).2 = 1 := by
  unfold goTillStop
  rcases hu : upLoop stopF atVel 0 501 with e | b
  · simp [countCleanup, doJog, isCleanupWr, swMode, rampMode, vMax]
  · cases b with
    | true => simp [countCleanup, doJog, isCleanupWr, swMode, rampMode, vMax]
    | false =>
      rcases hd : downLoop stopF stopped 0 10001 with e | u <;>
        simp [countCleanup, doJog, isCleanupWr, swMode, rampMode, vMax]

/-- C3 (amended): if during the stall-detection jog the "target velocity
reached" bit is never observed during the first 501 polls (the loop's
failure counter reaching its bound of 500 means the 501st consecutive
failed poll triggers the error), `goTillStop` returns the dedicated
"over 500 failures" timeout error, and on that exit path — as on every
other exit path, success or failure — the cleanup (a write of 0 to the
stallguard status-mask register followed by a zero-velocity jog) is
performed exactly once. -/
theorem C3_goTillStop_timeout (maxRPM fClk : ℚ) (stepsPerRev : ℤ) (rpm : ℚ)
    (atVel stopped : Nat → Bool) (h : ∀ i, i ≤ 500 → atVel i = false) :
    (goTillStop maxRPM fClk stepsPerRev rpm none atVel stopped).1 =
      some GtsErr.over500 ∧
    countCleanup (goTillStop maxRPM fClk stepsPerRev rpm none atVel stopped).2 = 1 ∧
    ∀ (stopF : Option (Nat → Bool)) (aV sp : Nat → Bool),
      countCleanup (goTillStop maxRPM fClk stepsPerRev rpm stopF aV sp).2 = 1 := by
  refine ⟨?_, goTillStop_cleanup_once maxRPM fClk stepsPerRev rpm none atVel stopped,
    fun stopF aV sp => goTillStop_cleanup_once maxRPM fClk stepsPerRev rpm stopF aV sp⟩
  unfold goTillStop
  rw [upLoop_all_false atVel h 501 0 rfl]

/-- C3 witness: with an oracle that never reports the velocity reached,
`goTillStop` at the unit tests' configuration (homing jog at -125 rpm)
returns the over-500 timeout error. -/
theorem C3_witness :
    (goTillStop 500 13200000 51200 (-125) none (fun _ => false)
      (fun _ => true)).1 = some GtsErr.over500 :=
  (C3_goTillStop_timeout 500 13200000 51200 (-125) (fun _ => false)
    (fun _ => true) (fun _ _ => rfl)).1

/-- C3 counterexample: with an oracle whose "target velocity reached" bit
is false on each of the first 500 polls (poll indices 0 through 499) but
set on the 501st, `goTillStop` succeeds — it does not return the timeout
error — refuting the claim that the error already follows from the bit not
being observed within 500 polls. -/
theorem C3_counterexample :
    ((List.range 500).all fun i => !(fun j => decide (j = 500)) i) = true ∧
    (goTillStop 500 13200000 51200 (-125) none (fun j => decide (j = 500))
      (fun _ => true)).1 = none := by
  constructor
  · decide
  · rfl

end TMC5072
